import Mathlib

/-!
Shallow embedding of `src/backEnd/src/services/geolocationService.js`
(the geolocation verification core of the repository), together with
theorems settling the specification claims about it.

JavaScript numbers are modelled as real numbers, with an explicit `nan`
constructor where a `NaN` can flow into a comparison (every comparison
against `NaN` is false, which the embedding realises by pattern matching);
absent / non-numeric fields are modelled with `Option`.  The five result
messages of `verifyLocation` are modelled by an inductive type carrying
the numeric payloads that the JavaScript template strings interpolate.
-/

namespace Geo

/-- JavaScript `Math.atan2(y, x)` on real arguments (the `NaN`/signed-zero
cases cannot arise at the call sites modelled here). -/
noncomputable def atan2 (y x : ℝ) : ℝ :=
  if 0 < x then Real.arctan (y / x)
  else if x < 0 then
    (if 0 ≤ y then Real.arctan (y / x) + Real.pi else Real.arctan (y / x) - Real.pi)
  else if 0 < y then Real.pi / 2
  else if y < 0 then -(Real.pi / 2)
  else 0

/-- `toRadians(degrees)` from the source: `degrees * (Math.PI / 180)`. -/
noncomputable def toRadians (degrees : ℝ) : ℝ :=
  degrees * (Real.pi / 180)

/-- `calculateDistance(lat1, lon1, lat2, lon2)` from the source:
Haversine formula with Earth radius `R = 6371e3` meters. -/
noncomputable def calculateDistance (lat1 lon1 lat2 lon2 : ℝ) : ℝ :=
  let R : ℝ := 6371000
  let φ1 := toRadians lat1
  let φ2 := toRadians lat2
  let Δφ := toRadians (lat2 - lat1)
  let Δlambda := toRadians (lon2 - lon1)
  let a := Real.sin (Δφ / 2) * Real.sin (Δφ / 2) +
    Real.cos φ1 * Real.cos φ2 * Real.sin (Δlambda / 2) * Real.sin (Δlambda / 2)
  let c := 2 * atan2 (Real.sqrt a) (Real.sqrt (1 - a))
  R * c

/-- Result shape of `isWithinRadius`: the reported `distance` is
`Math.round`ed (an integer), while `isWithin` is computed from the
unrounded distance. -/
structure WithinRadiusResult where
  isWithin : Bool
  distance : ℤ
  radiusMeters : ℝ

/-- `isWithinRadius(userLat, userLon, targetLat, targetLon, radiusMeters)`
from the source. -/
noncomputable def isWithinRadius (userLat userLon targetLat targetLon radiusMeters : ℝ) :
    WithinRadiusResult :=
  let distance := calculateDistance userLat userLon targetLat targetLon
  { isWithin := decide (distance ≤ radiusMeters)
    distance := round distance
    radiusMeters := radiusMeters }

/-- The `directions` array of `getDirection`. -/
def directions : List String :=
  ["N", "NE", "E", "SE", "S", "SW", "W", "NW"]

/-- `getDirection(bearing)` from the source:
`directions[Math.round(bearing / 45) % 8]`.  JavaScript `%` truncates
(`Int.tmod`), so a negative bearing can yield a negative index, on which
the array access returns `undefined` (modelled as `none`). -/
noncomputable def getDirection (bearing : ℝ) : Option String :=
  let index : ℤ := Int.tmod (round (bearing / 45)) 8
  if 0 ≤ index then directions[index.toNat]? else none

/-- A JavaScript value of type `number`: either `NaN` or a real. -/
inductive JNum where
  | nan : JNum
  | val : ℝ → JNum

/-- `isValidCoordinates(lat, lon)` from the source.  The arguments are
of `typeof 'number'` by construction; `NaN` fails every range comparison,
hence the `False` arm. -/
def isValidCoordinates : JNum → JNum → Prop
  | .val lat, .val lon => -90 ≤ lat ∧ lat ≤ 90 ∧ -180 ≤ lon ∧ lon ≤ 180
  | _, _ => False

/-- The `submittedLocation` argument of `verifyLocation`: each field is
`none` when absent or not of type `number`. -/
structure SubmittedLoc where
  latitude : Option JNum
  longitude : Option JNum

/-- The `targetLocation` argument of `verifyLocation`: `coordinates` is
`none` when absent or not an array, and `radiusMeters` is `none` when
absent or not a number. -/
structure TargetLoc where
  coordinates : Option (List JNum)
  radiusMeters : Option JNum

/-- The messages `verifyLocation` can produce, with the numeric payloads
the JavaScript template strings interpolate. -/
inductive Message where
  | locationDataNotProvided : Message
  | targetNotConfigured : Message
  | invalidCoordinates : Message
  | verified : ℤ → Message
  | mismatch : ℤ → ℝ → Message

/-- `true` exactly on the messages of results with `passed = false`. -/
def Message.isFailure : Message → Bool
  | .verified _ => false
  | _ => true

/-- The `VerificationResult` shape returned by `verifyLocation`. -/
structure VerificationResult where
  passed : Bool
  withinRadius : Bool
  distanceMeters : Option ℤ
  allowedRadius : Option ℝ
  message : Message

/-- `Math.max(10, Number(targetLocation?.radiusMeters || 50))`:
`undefined`, `NaN` and `0` are falsy, so they default to `50`. -/
noncomputable def radiusOr50 : Option JNum → ℝ
  | some (.val r) => if r = 0 then 50 else r
  | _ => 50

/-- `targetLocation?.radiusMeters || null` (used by the failure branches):
`undefined`, `NaN` and `0` are falsy, so they give `null`. -/
noncomputable def radiusOrNull : Option JNum → Option ℝ
  | some (.val r) => if r = 0 then none else some r
  | _ => none

open Classical in
/-- `verifyLocation(submittedLocation, targetLocation)` from the source.
The stages mirror the code: presence check on the submitted latitude and
longitude, `allowedRadius` computation, target-configuration check
(`Array.isArray(coords) && coords.length === 2`), coordinate validation
(a `NaN` entry fails `isValidCoordinates`, hence the wildcard arm), and
the rounded-distance comparison.  The surrounding `try`/`catch` of the
source is unreachable in this model, where no arithmetic throws. -/
noncomputable def verifyLocation (s : SubmittedLoc) (t : TargetLoc) : VerificationResult :=
  match s.latitude, s.longitude with
  | some uLat, some uLon =>
    let allowedRadius : ℝ := max 10 (radiusOr50 t.radiusMeters)
    match t.coordinates with
    | some [jLon, jLat] =>
      match uLat, uLon, jLat, jLon with
      | .val la, .val lo, .val tLat, .val tLon =>
        if isValidCoordinates (.val la) (.val lo) ∧ isValidCoordinates (.val tLat) (.val tLon) then
          let distanceMeters : ℤ := round (calculateDistance la lo tLat tLon)
          if (distanceMeters : ℝ) ≤ allowedRadius then
            { passed := true, withinRadius := true, distanceMeters := some distanceMeters,
              allowedRadius := some allowedRadius, message := .verified distanceMeters }
          else
            { passed := false, withinRadius := false, distanceMeters := some distanceMeters,
              allowedRadius := some allowedRadius,
              message := .mismatch distanceMeters allowedRadius }
        else
          { passed := false, withinRadius := false, distanceMeters := none,
            allowedRadius := some allowedRadius, message := .invalidCoordinates }
      | _, _, _, _ =>
        { passed := false, withinRadius := false, distanceMeters := none,
          allowedRadius := some allowedRadius, message := .invalidCoordinates }
    | _ =>
      { passed := false, withinRadius := false, distanceMeters := none,
        allowedRadius := some allowedRadius, message := .targetNotConfigured }
  | _, _ =>
    { passed := false, withinRadius := false, distanceMeters := none,
      allowedRadius := radiusOrNull t.radiusMeters, message := .locationDataNotProvided }

/-- The `deviceInfo` argument of `detectSpoofing`. -/
structure DeviceInfo where
  isEmulator : Bool
  isMockLocation : Bool

/-- One entry of the `checks` list of a spoof assessment. -/
structure SpoofCheck where
  check : String
  passed : Bool
  details : String

/-- The `SpoofAssessment` shape returned by `detectSpoofing`; the risk
score is exactly representable in the rationals (the floating-point
computation of the source takes the same branches on all inputs). -/
structure SpoofAssessment where
  passed : Bool
  checks : List SpoofCheck
  riskScore : ℚ

/-- `detectSpoofing(deviceInfo)` from the source. -/
def detectSpoofing : Option DeviceInfo → SpoofAssessment
  | none => { passed := true, checks := [], riskScore := 0 }
  | some deviceInfo =>
    let checks : List SpoofCheck :=
      [if deviceInfo.isEmulator then
        { check := "isEmulator", passed := false, details := "Device reports emulator" }
      else
        { check := "isEmulator", passed := true, details := "Not an emulator" },
      if deviceInfo.isMockLocation then
        { check := "mockLocation", passed := false, details := "Mock location enabled" }
      else
        { check := "mockLocation", passed := true, details := "Mock location not detected" }]
    let riskScore0 : ℚ :=
      (if deviceInfo.isEmulator then 0.6 else 0) +
        (if deviceInfo.isMockLocation then 0.6 else 0)
    let riskScore : ℚ := min 1 riskScore0
    { passed := decide (riskScore ≤ 0.5), checks := checks, riskScore := riskScore }

/-- A candidate handed to `findNearby`: the source destructures
`location.coordinates.coordinates` as `[lon, lat]` and flattens the rest
with `location.toObject()`, modelled as an opaque payload `obj`. -/
structure NearbyCandidate (α : Type) where
  lon : ℝ
  lat : ℝ
  obj : α

/-- One element of the list `findNearby` returns: the flattened candidate
with its computed `distance` attached. -/
structure NearbyResult (α : Type) where
  obj : α
  distance : ℝ

/-- The map-and-filter stages of `findNearby`: attach the distance from
the user point to every candidate, then keep those with
`distance <= maxDistanceMeters`. -/
noncomputable def nearbyFiltered {α : Type} (userLat userLon : ℝ)
    (locations : List (NearbyCandidate α)) (maxDistanceMeters : ℝ) : List (NearbyResult α) :=
  (locations.map fun l =>
    NearbyResult.mk l.obj (calculateDistance userLat userLon l.lat l.lon)).filter
    fun loc => decide (loc.distance ≤ maxDistanceMeters)

/-- `findNearby(userLat, userLon, locations, maxDistanceMeters)` from the
source: map, filter, then `sort((a, b) => a.distance - b.distance)` —
a stable ascending sort by distance (ECMAScript `Array.prototype.sort`
is stable), modelled with `List.mergeSort`. -/
noncomputable def findNearby {α : Type} (userLat userLon : ℝ)
    (locations : List (NearbyCandidate α)) (maxDistanceMeters : ℝ) : List (NearbyResult α) :=
  (nearbyFiltered userLat userLon locations maxDistanceMeters).mergeSort
    fun a b => decide (a.distance ≤ b.distance)

/-! ### Helper lemmas about the Haversine primitive -/

/-- The Haversine distance between identical points is `0`. -/
theorem calculateDistance_self (x y : ℝ) : calculateDistance x y x y = 0 := by
  simp [calculateDistance, toRadians, atan2, Real.arctan_zero]

/-- The Haversine distance is symmetric in its two points. -/
theorem calculateDistance_comm (a b c d : ℝ) :
    calculateDistance a b c d = calculateDistance c d a b := by
  have e1 : toRadians (c - a) = -(toRadians (a - c)) := by unfold toRadians; ring
  have e2 : toRadians (d - b) = -(toRadians (b - d)) := by unfold toRadians; ring
  unfold calculateDistance
  simp only [e1, e2, neg_div, Real.sin_neg]
  ring_nf

/-- Moving `δ` degrees of longitude east along the equator covers exactly
`R·δ·π/180` meters (for `0 ≤ δ < 180` the Haversine arc simplifies). -/
theorem calculateDistance_equator (δ : ℝ) (h0 : 0 ≤ δ) (h1 : δ < 180) :
    calculateDistance 0 0 0 δ = 6371000 * (δ * (Real.pi / 180)) := by
  have hπ := Real.pi_pos
  have hθ0 : 0 ≤ δ * (Real.pi / 180) / 2 := by
    have := mul_nonneg h0 (le_of_lt (by positivity : (0:ℝ) < Real.pi / 180))
    linarith
  have hθlt : δ * (Real.pi / 180) / 2 < Real.pi / 2 := by
    have h2 : δ * (Real.pi / 180) < 180 * (Real.pi / 180) :=
      mul_lt_mul_of_pos_right h1 (by positivity)
    have h3 : (180:ℝ) * (Real.pi / 180) = Real.pi := by ring
    linarith
  have hθpi : δ * (Real.pi / 180) / 2 ≤ Real.pi := by linarith
  have hsin0 : 0 ≤ Real.sin (δ * (Real.pi / 180) / 2) :=
    Real.sin_nonneg_of_nonneg_of_le_pi hθ0 hθpi
  have hcos : 0 < Real.cos (δ * (Real.pi / 180) / 2) :=
    Real.cos_pos_of_mem_Ioo ⟨by linarith, hθlt⟩
  unfold calculateDistance toRadians
  simp only [sub_zero, zero_mul, zero_div, Real.sin_zero, Real.cos_zero, one_mul,
    mul_zero, zero_add, mul_one]
  rw [Real.sqrt_mul_self hsin0]
  have h1a : 1 - Real.sin (δ * (Real.pi / 180) / 2) * Real.sin (δ * (Real.pi / 180) / 2) =
      Real.cos (δ * (Real.pi / 180) / 2) * Real.cos (δ * (Real.pi / 180) / 2) := by
    nlinarith [Real.sin_sq_add_cos_sq (δ * (Real.pi / 180) / 2)]
  rw [h1a, Real.sqrt_mul_self (le_of_lt hcos)]
  unfold atan2
  rw [if_pos hcos, ← Real.tan_eq_sin_div_cos, Real.arctan_tan (by linarith) hθlt]
  ring

/-- C8: the distance function is symmetric, and returns `0` for identical
points at every valid coordinate. -/
theorem calculateDistance_symm_and_zero :
    (∀ a b c d : ℝ, calculateDistance a b c d = calculateDistance c d a b) ∧
    (∀ x y : ℝ, isValidCoordinates (.val x) (.val y) → calculateDistance x y x y = 0) :=
  ⟨calculateDistance_comm, fun x y _ => calculateDistance_self x y⟩

/-- Witness for C8 at concrete valid coordinates. -/
theorem calculateDistance_symm_and_zero_witness :
    calculateDistance 10 20 10 20 = 0 ∧
    calculateDistance 1 2 3 4 = calculateDistance 3 4 1 2 :=
  ⟨calculateDistance_symm_and_zero.2 10 20 (by constructor <;> norm_num),
    calculateDistance_symm_and_zero.1 1 2 3 4⟩

/-! ### Spoof-detection heuristic -/

/-- A single triggered heuristic already contributes `0.6 > 0.5`, so the
assessment fails with exactly one flag set: one heuristic firing is NOT
compatible with passing. -/
theorem detectSpoofing_single_trigger_fails :
    (detectSpoofing (some ⟨true, false⟩)).riskScore = 0.6 ∧
    (detectSpoofing (some ⟨true, false⟩)).passed = false := by
  norm_num [detectSpoofing, min_def]

/-- C4 (amended): for every supplied device signal the assessment passes
exactly when the risk score is at most `0.5`; since every triggered
heuristic weighs `0.6`, this means no heuristic at all may fire for the
assessment to pass. -/
theorem detectSpoofing_passed_iff_riskScore (d : DeviceInfo) :
    ((detectSpoofing (some d)).passed = true ↔
      (detectSpoofing (some d)).riskScore ≤ 0.5) ∧
    ((detectSpoofing (some d)).passed = true ↔
      d.isEmulator = false ∧ d.isMockLocation = false) := by
  rcases d with ⟨e, m⟩
  cases e <;> cases m <;> constructor <;> norm_num [detectSpoofing, min_def]

/-- Witness for C4 at a concrete device signal. -/
theorem detectSpoofing_passed_iff_riskScore_witness :
    ((detectSpoofing (some ⟨false, true⟩)).passed = true ↔
      (detectSpoofing (some ⟨false, true⟩)).riskScore ≤ 0.5) :=
  (detectSpoofing_passed_iff_riskScore ⟨false, true⟩).1

/-- C5: no signal gives the permissive default; with a signal the risk
score is `min 1` of the sum of the triggered `0.6` weights; both flags
set give score `1` and a failed assessment; the score never exceeds `1`. -/
theorem detectSpoofing_riskScore_spec :
    detectSpoofing none = ⟨true, [], 0⟩ ∧
    (∀ d : DeviceInfo, (detectSpoofing (some d)).riskScore =
      min 1 ((if d.isEmulator then (0.6:ℚ) else 0) + (if d.isMockLocation then (0.6:ℚ) else 0))) ∧
    (detectSpoofing (some ⟨true, true⟩)).riskScore = 1 ∧
    (detectSpoofing (some ⟨true, true⟩)).passed = false ∧
    (∀ d : Option DeviceInfo, (detectSpoofing d).riskScore ≤ 1) := by
  refine ⟨rfl, ?_, by norm_num [detectSpoofing, min_def], by norm_num [detectSpoofing, min_def], ?_⟩
  · rintro ⟨e, m⟩
    cases e <;> cases m <;> norm_num [detectSpoofing, min_def]
  · rintro (_ | ⟨e, m⟩)
    · norm_num [detectSpoofing]
    · cases e <;> cases m <;> norm_num [detectSpoofing, min_def]

/-- Witness for C5 at a concrete device signal. -/
theorem detectSpoofing_riskScore_spec_witness :
    (detectSpoofing (some ⟨false, true⟩)).riskScore =
      min 1 ((if false then (0.6:ℚ) else 0) + (if true then (0.6:ℚ) else 0)) :=
  detectSpoofing_riskScore_spec.2.1 ⟨false, true⟩

/-! ### Location verifier -/

/-- C6: a submitted location with a missing (non-numeric) latitude or
longitude short-circuits to the presence failure, with a null distance
and the target radius only when truthy. -/
theorem verifyLocation_presence_failure (s : SubmittedLoc) (t : TargetLoc)
    (h : s.latitude = none ∨ s.longitude = none) :
    verifyLocation s t =
      { passed := false, withinRadius := false, distanceMeters := none,
        allowedRadius := radiusOrNull t.radiusMeters,
        message := .locationDataNotProvided } := by
  obtain ⟨slat, slon⟩ := s
  cases slat <;> cases slon <;> simp_all [verifyLocation]

/-- Witness for C6 at a concrete empty submitted location. -/
theorem verifyLocation_presence_failure_witness :
    verifyLocation ⟨none, none⟩ ⟨none, some (.val 20)⟩ =
      { passed := false, withinRadius := false, distanceMeters := none,
        allowedRadius := some 20, message := .locationDataNotProvided } := by
  have h := verifyLocation_presence_failure ⟨none, none⟩ ⟨none, some (.val 20)⟩ (Or.inl rfl)
  rw [h]
  simp only [radiusOrNull]
  rw [if_neg (by norm_num : ¬(20:ℝ) = 0)]

/-- C3: whenever the presence check passes, the result carries
`allowedRadius = max 10 (radiusMeters or 50)`, in every outcome. -/
theorem verifyLocation_allowedRadius_clamped (u1 u2 : JNum) (t : TargetLoc) :
    (verifyLocation ⟨some u1, some u2⟩ t).allowedRadius =
      some (max 10 (radiusOr50 t.radiusMeters)) := by
  obtain ⟨coords, rm⟩ := t
  rcases coords with _ | (_ | ⟨a, _ | ⟨b, _ | ⟨c, rest⟩⟩⟩) <;>
    first
      | rfl
      | (rcases u1 with _ | x <;> rcases u2 with _ | y <;>
          rcases a with _ | av <;> rcases b with _ | bv <;>
          simp only [verifyLocation] <;>
          first
            | rfl
            | (split_ifs <;> rfl))

/-- Witness for C3: the spec example `radiusMeters = 5` is clamped to 10. -/
theorem verifyLocation_allowedRadius_clamped_witness :
    (verifyLocation ⟨some (.val 0), some (.val 0)⟩
        ⟨some [.val 0, .val 0], some (.val 5)⟩).allowedRadius = some 10 := by
  have h := verifyLocation_allowedRadius_clamped (.val 0) (.val 0)
    ⟨some [.val 0, .val 0], some (.val 5)⟩
  rw [h]
  simp only [radiusOr50]
  rw [if_neg (by norm_num : ¬(5:ℝ) = 0), max_eq_left (by norm_num : (5:ℝ) ≤ 10)]

/-- C2: `verifyLocation` is a total function into `VerificationResult`;
in every outcome `withinRadius` agrees with `passed`, and every
non-passing outcome carries a failure message.  (The source wraps the
body in `try`/`catch`; in this model no sub-expression can throw, so the
catch branch is unreachable.) -/
theorem verifyLocation_total_structured (s : SubmittedLoc) (t : TargetLoc) :
    (verifyLocation s t).withinRadius = (verifyLocation s t).passed ∧
    ((verifyLocation s t).passed = true ∨
      Message.isFailure (verifyLocation s t).message = true) := by
  obtain ⟨slat, slon⟩ := s
  obtain ⟨coords, rm⟩ := t
  rcases slat with _ | u1 <;> rcases slon with _ | u2 <;>
    try exact ⟨rfl, Or.inr rfl⟩
  rcases coords with _ | (_ | ⟨a, _ | ⟨b, _ | ⟨c, rest⟩⟩⟩) <;>
    try exact ⟨rfl, Or.inr rfl⟩
  rcases u1 with _ | x <;> rcases u2 with _ | y <;>
    rcases a with _ | av <;> rcases b with _ | bv <;>
    simp only [verifyLocation] <;>
    first
      | (split_ifs <;> simp [Message.isFailure])
      | simp [Message.isFailure]

/-- Witness for C2 at a concrete input. -/
theorem verifyLocation_total_structured_witness :
    (verifyLocation ⟨none, none⟩ ⟨none, none⟩).withinRadius =
      (verifyLocation ⟨none, none⟩ ⟨none, none⟩).passed ∧
    ((verifyLocation ⟨none, none⟩ ⟨none, none⟩).passed = true ∨
      Message.isFailure (verifyLocation ⟨none, none⟩ ⟨none, none⟩).message = true) :=
  verifyLocation_total_structured ⟨none, none⟩ ⟨none, none⟩

/-- C1: on numeric submitted coordinates and a two-element
`[longitude, latitude]` target pair, both valid, the verifier reports the
rounded Haversine distance, `withinRadius` is the comparison of that
rounded distance against the allowed radius, and `passed = withinRadius`. -/
theorem verifyLocation_distance_evaluation (uLat uLon tLat tLon : ℝ) (rm : Option JNum)
    (hu : isValidCoordinates (.val uLat) (.val uLon))
    (ht : isValidCoordinates (.val tLat) (.val tLon)) :
    (verifyLocation ⟨some (.val uLat), some (.val uLon)⟩
        ⟨some [.val tLon, .val tLat], rm⟩).distanceMeters =
      some (round (calculateDistance uLat uLon tLat tLon)) ∧
    (verifyLocation ⟨some (.val uLat), some (.val uLon)⟩
        ⟨some [.val tLon, .val tLat], rm⟩).allowedRadius =
      some (max 10 (radiusOr50 rm)) ∧
    ((verifyLocation ⟨some (.val uLat), some (.val uLon)⟩
        ⟨some [.val tLon, .val tLat], rm⟩).withinRadius = true ↔
      ((round (calculateDistance uLat uLon tLat tLon) : ℤ) : ℝ) ≤ max 10 (radiusOr50 rm)) ∧
    (verifyLocation ⟨some (.val uLat), some (.val uLon)⟩
        ⟨some [.val tLon, .val tLat], rm⟩).passed =
      (verifyLocation ⟨some (.val uLat), some (.val uLon)⟩
        ⟨some [.val tLon, .val tLat], rm⟩).withinRadius := by
  simp only [verifyLocation]
  rw [if_pos ⟨hu, ht⟩]
  by_cases hle :
      ((round (calculateDistance uLat uLon tLat tLon) : ℤ) : ℝ) ≤ max 10 (radiusOr50 rm)
  · rw [if_pos hle]
    exact ⟨rfl, rfl, by simpa using hle, rfl⟩
  · rw [if_neg hle]
    exact ⟨rfl, rfl, by simpa using hle, rfl⟩

/-- Witness for C1: the spec example — identical points, radius 50,
distance 0, verification passes. -/
theorem verifyLocation_distance_evaluation_witness :
    (verifyLocation ⟨some (.val 10), some (.val 10)⟩
        ⟨some [.val 10, .val 10], some (.val 50)⟩).passed = true ∧
    (verifyLocation ⟨some (.val 10), some (.val 10)⟩
        ⟨some [.val 10, .val 10], some (.val 50)⟩).distanceMeters = some 0 := by
  have h := verifyLocation_distance_evaluation 10 10 10 10 (some (.val 50))
    (by constructor <;> norm_num) (by constructor <;> norm_num)
  have hd : calculateDistance 10 10 10 10 = 0 := calculateDistance_self 10 10
  have hw : (verifyLocation ⟨some (.val 10), some (.val 10)⟩
      ⟨some [.val 10, .val 10], some (.val 50)⟩).withinRadius = true := by
    refine h.2.2.1.mpr ?_
    rw [hd, round_zero]
    push_cast
    exact le_trans (by norm_num) (le_max_left 10 _)
  refine ⟨?_, ?_⟩
  · rw [h.2.2.2, hw]
  · rw [h.1, hd, round_zero]

/-! ### Compass direction -/

/-- C9: for bearings in `[0, 360]` the compass index
`round(bearing / 45) % 8` lands in the array, and the result is one of
the 8 compass strings; the spec examples `0 ↦ N`, `90 ↦ E`, `360 ↦ N`
hold. -/
theorem getDirection_spec :
    (∀ b : ℝ, 0 ≤ b → b ≤ 360 → ∃ s, getDirection b = some s ∧ s ∈ directions) ∧
    getDirection 0 = some "N" ∧ getDirection 90 = some "E" ∧ getDirection 360 = some "N" := by
  refine ⟨?_, ?_, ?_, ?_⟩
  · intro b hb0 hb1
    have hr0 : (0:ℤ) ≤ round (b / 45) := by
      rw [round_eq]
      refine Int.le_floor.mpr ?_
      push_cast
      have : 0 ≤ b / 45 := div_nonneg hb0 (by norm_num)
      linarith
    have hr9 : round (b / 45) < 9 := by
      rw [round_eq]
      refine Int.floor_lt.mpr ?_
      push_cast
      have : b / 45 ≤ 8 := by
        rw [div_le_iff₀ (by norm_num : (0:ℝ) < 45)]
        linarith
      linarith
    have hidx0 : 0 ≤ Int.tmod (round (b / 45)) 8 := Int.tmod_nonneg 8 hr0
    have hidx8 : Int.tmod (round (b / 45)) 8 < 8 := Int.tmod_lt_of_pos _ (by norm_num)
    have hlen : (Int.tmod (round (b / 45)) 8).toNat < directions.length := by
      simp only [directions, List.length_cons, List.length_nil]
      omega
    refine ⟨directions[(Int.tmod (round (b / 45)) 8).toNat], ?_, ?_⟩
    · unfold getDirection
      rw [if_pos hidx0]
      exact List.getElem?_eq_getElem hlen
    · exact List.getElem_mem hlen
  · have h1 : ((0:ℝ) / 45) = 0 := by norm_num
    have h2 : Int.tmod (round ((0:ℝ) / 45)) 8 = 0 := by rw [h1, round_zero]; decide
    simp [getDirection, h2, directions]
  · have h1 : ((90:ℝ) / 45) = 2 := by norm_num
    have h2 : Int.tmod (round ((90:ℝ) / 45)) 8 = 2 := by
      rw [h1]
      norm_num [round_ofNat]
      decide
    simp [getDirection, h2, directions]
  · have h1 : ((360:ℝ) / 45) = 8 := by norm_num
    have h2 : Int.tmod (round ((360:ℝ) / 45)) 8 = 0 := by
      rw [h1]
      norm_num [round_ofNat]
    simp [getDirection, h2, directions]

/-- Witness for C9 at a concrete bearing. -/
theorem getDirection_spec_witness :
    ∃ s, getDirection 200 = some s ∧ s ∈ directions :=
  getDirection_spec.1 200 (by norm_num) (by norm_num)

/-! ### Rounding contrast between isWithinRadius and verifyLocation -/

/-- 0.0001 degrees of longitude along the equator is between 11 and 11.5
meters of Haversine distance. -/
theorem dist_e4_bounds :
    11 < calculateDistance 0 0 0 (1/10000) ∧ calculateDistance 0 0 0 (1/10000) < 11.5 := by
  rw [calculateDistance_equator (1/10000) (by norm_num) (by norm_num)]
  constructor
  · nlinarith [Real.pi_gt_d4]
  · nlinarith [Real.pi_lt_d4]

/-- That distance rounds to exactly 11 meters. -/
theorem dist_e4_round : round (calculateDistance 0 0 0 (1/10000)) = 11 := by
  obtain ⟨hlo, hhi⟩ := dist_e4_bounds
  rw [round_eq]
  refine Int.floor_eq_iff.mpr ⟨?_, ?_⟩ <;> push_cast <;> [linarith; linarith]

/-- C10: `isWithinRadius` compares the unrounded distance but reports the
rounded one, so at ~11.12 m true distance with an 11 m radius it reports
`distance = 11 = radiusMeters` yet `isWithin = false`; `verifyLocation`
on the same geometry compares the rounded distance and passes. -/
theorem isWithinRadius_rounding_contrast :
    (isWithinRadius 0 0 0 (1/10000) 11).distance = 11 ∧
    (isWithinRadius 0 0 0 (1/10000) 11).radiusMeters = 11 ∧
    (isWithinRadius 0 0 0 (1/10000) 11).isWithin = false ∧
    (verifyLocation ⟨some (.val 0), some (.val 0)⟩
        ⟨some [.val (1/10000), .val 0], some (.val 11)⟩).passed = true ∧
    (verifyLocation ⟨some (.val 0), some (.val 0)⟩
        ⟨some [.val (1/10000), .val 0], some (.val 11)⟩).distanceMeters = some 11 := by
  have hrad : max 10 (radiusOr50 (some (JNum.val 11))) = 11 := by
    simp only [radiusOr50]
    rw [if_neg (by norm_num : ¬(11:ℝ) = 0), max_eq_right (by norm_num : (10:ℝ) ≤ 11)]
  have hv : verifyLocation ⟨some (.val 0), some (.val 0)⟩
      ⟨some [.val (1/10000), .val 0], some (.val 11)⟩ =
      { passed := true, withinRadius := true, distanceMeters := some 11,
        allowedRadius := some 11, message := .verified 11 } := by
    simp only [verifyLocation, hrad]
    rw [if_pos ⟨by constructor <;> norm_num, by constructor <;> norm_num⟩]
    rw [dist_e4_round]
    rw [if_pos (by norm_num : ((11:ℤ) : ℝ) ≤ 11)]
  refine ⟨?_, rfl, ?_, ?_, ?_⟩
  · simp only [isWithinRadius]
    exact dist_e4_round
  · simp only [isWithinRadius]
    exact decide_eq_false (not_le.mpr dist_e4_bounds.1)
  · rw [hv]
  · rw [hv]

/-! ### Nearby-location query helper -/

/-- C7: `findNearby` returns exactly the mapped candidates within
`maxDistanceMeters` (a permutation of the filtered projection), sorted
ascending by distance, and the sort is stable: a pair appearing in the
filtered input order with equal distances appears in that order in the
output. -/
theorem findNearby_spec {α : Type} (userLat userLon maxD : ℝ)
    (cands : List (NearbyCandidate α)) :
    (findNearby userLat userLon cands maxD).Perm
      (nearbyFiltered userLat userLon cands maxD) ∧
    (findNearby userLat userLon cands maxD).Pairwise
      (fun a b => a.distance ≤ b.distance) ∧
    (∀ a b : NearbyResult α,
      List.Sublist [a, b] (nearbyFiltered userLat userLon cands maxD) →
      a.distance = b.distance →
      List.Sublist [a, b] (findNearby userLat userLon cands maxD)) ∧
    nearbyFiltered userLat userLon cands maxD =
      (cands.map fun l =>
        NearbyResult.mk l.obj (calculateDistance userLat userLon l.lat l.lon)).filter
        (fun r => decide (r.distance ≤ maxD)) := by
  have htrans : ∀ a b c : NearbyResult α, decide (a.distance ≤ b.distance) = true →
      decide (b.distance ≤ c.distance) = true → decide (a.distance ≤ c.distance) = true :=
    fun a b c h1 h2 =>
      decide_eq_true (le_trans (of_decide_eq_true h1) (of_decide_eq_true h2))
  have htotal : ∀ a b : NearbyResult α,
      (decide (a.distance ≤ b.distance) || decide (b.distance ≤ a.distance)) = true := by
    intro a b
    rcases le_total a.distance b.distance with h | h <;> simp [h]
  refine ⟨List.mergeSort_perm _ _, ?_, ?_, rfl⟩
  · exact (List.sorted_mergeSort htrans htotal
      (nearbyFiltered userLat userLon cands maxD)).imp fun h => of_decide_eq_true h
  · intro a b hsub heq
    exact List.pair_sublist_mergeSort htrans htotal (decide_eq_true (le_of_eq heq)) hsub

/-- Witness for C7: two candidates at the same point keep their input
order in the output. -/
theorem findNearby_spec_witness :
    List.Sublist
      [NearbyResult.mk (1:ℕ) (calculateDistance 0 0 0 0),
        NearbyResult.mk 2 (calculateDistance 0 0 0 0)]
      (findNearby 0 0 [NearbyCandidate.mk 0 0 (1:ℕ), NearbyCandidate.mk 0 0 2] 5) := by
  have h := findNearby_spec 0 0 5 [NearbyCandidate.mk 0 0 (1:ℕ), NearbyCandidate.mk 0 0 2]
  refine h.2.2.1 _ _ ?_ rfl
  have hc : decide (calculateDistance 0 0 0 0 ≤ (5:ℝ)) = true :=
    decide_eq_true (by rw [calculateDistance_self]; norm_num)
  have : nearbyFiltered 0 0 [NearbyCandidate.mk 0 0 (1:ℕ), NearbyCandidate.mk 0 0 2] 5 =
      [NearbyResult.mk 1 (calculateDistance 0 0 0 0),
        NearbyResult.mk 2 (calculateDistance 0 0 0 0)] := by
    simp [nearbyFiltered, List.filter_cons, hc]
  rw [this]

end Geo
